import Mathlib

/-!
Verification of the Slippi launcher's Dolphin instance manager
(`src/main/dolphinManager.ts`) and installation manager
(`DolphinInstallation` in the renderer bundle).

The TypeScript code is shallowly embedded:

* `launchDolphin` and its four `switch` branches are translated case by
  case into pure state-passing functions over `ManagerState`.
* The filesystem is an association list from paths to file data.
  `fs.writeFile` creates-or-overwrites; `fs.unlink` fails (rejects with
  `ENOENT`) when the path is absent, as in Node.
* `randomBytes`-based comm-file names are determinized by a counter in the
  state: the `uniqueId` hex string becomes the counter's decimal image.
  No claim depends on the entropy of the suffix.
* Process spawning hands out consecutive pids from `nextPid`, which
  therefore also counts how many processes were ever spawned.
* The `dolphin.on("close", ...)` callbacks become explicit event
  functions (`playbackOnClose`, ...) capturing the same variables the
  JS closures capture.
* `JSON.stringify` applied to a payload is abstracted by the injective
  constructor `FileData.json`; `JSON.stringify(undefined)` is `undefined`,
  which the legacy `fs.writeFile` string-coercion writes as the literal
  text `undefined` (`FileData.text "undefined"`).
-/

/-- The `dolphinUseType` string union from `dolphinManager.ts`. -/
inductive UseType
  | playback
  | spectate
  | config
  | netplay
deriving DecidableEq, Repr

/-- `DolphinType` from `common/dolphin` as used by `dolphinManager.ts`. -/
inductive DolphinType
  | NETPLAY
  | PLAYBACK
deriving DecidableEq, Repr

def UseType.str : UseType → String
  | .playback => "playback"
  | .spectate => "spectate"
  | .config => "config"
  | .netplay => "netplay"

/-- `ReplayQueueItem` interface. -/
structure ReplayQueueItem where
  path : String
  startFrame : Option Int := none
  endFrame : Option Int := none
  gameStartAt : Option String := none
  gameStation : Option String := none
deriving DecidableEq, Repr

/-- `ReplayCommunication` interface. The `mode` and `rollbackDisplayMethod`
string unions are kept as strings. -/
structure ReplayCommunication where
  mode : String
  replay : Option String := none
  startFrame : Option Int := none
  endFrame : Option Int := none
  commandId : Option String := none
  outputOverlayFiles : Option Bool := none
  isRealTimeMode : Option Bool := none
  shouldResync : Option Bool := none
  rollbackDisplayMethod : Option String := none
  queue : Option (List ReplayQueueItem) := none
deriving DecidableEq, Repr

/-- Contents of a file on disk: either plain text or the JSON serialization
of a `ReplayCommunication` (abstracted, injectively, by the constructor). -/
inductive FileData
  | text (s : String)
  | json (rc : ReplayCommunication)
deriving DecidableEq, Repr

/-- `JSON.stringify(replayComm)` as handed to `fs.writeFile`: for a present
payload, its JSON serialization; for `undefined`, `JSON.stringify` yields
`undefined` and the legacy `fs.writeFile` coercion writes the text
`undefined`. -/
def jsonStringify : Option ReplayCommunication → FileData
  | some rc => .json rc
  | none => .text "undefined"

/-- The filesystem: an association list from paths to contents. -/
abbrev FS := List (String × FileData)

def fileExists (fs : FS) (p : String) : Bool :=
  fs.any (fun e => e.1 == p)

def lookupFile (fs : FS) (p : String) : Option FileData :=
  (fs.find? (fun e => e.1 == p)).map (fun e => e.2)

/-- `fs.writeFile`: creates the file or fully overwrites its contents. -/
def writeFile (fs : FS) (p : String) (d : FileData) : FS :=
  (p, d) :: fs.filter (fun e => !(e.1 == p))

/-- `fs.unlink`: removes the file; rejects with `ENOENT` when absent. -/
def unlink (fs : FS) (p : String) : Except String FS :=
  if fileExists fs p then .ok (fs.filter (fun e => !(e.1 == p)))
  else .error "ENOENT"

/-- The `DolphinInstance` interface. Process handles are pids (`Nat`). -/
structure DolphinInstance where
  dolphinUseType : UseType
  index : Option Int := none
  dolphin : Option Nat := none
  commFilePath : Option String := none
deriving DecidableEq, Repr

/-- The `DolphinInstances` record held by `DolphinManager`. -/
structure DolphinInstances where
  playback : Option DolphinInstance := none
  spectate : Option (List DolphinInstance) := none
  netplay : Option DolphinInstance := none
  configNetplay : Option DolphinInstance := none
  configPlayback : Option DolphinInstance := none
deriving DecidableEq, Repr

/-- The whole mutable world the manager touches: its slot record, the
filesystem, the determinized comm-file-name counter, and the pid counter
(`nextPid` equals the number of processes ever spawned). -/
structure ManagerState where
  instances : DolphinInstances := {}
  fs : FS := []
  nextCommId : Nat := 0
  nextPid : Nat := 0
deriving DecidableEq, Repr

def initialState : ManagerState := {}

/-- `generateCommunicationFilePath`: a temp path embedding the use type and
a fresh unique suffix (the random bytes determinized by `nextCommId`). -/
def generateCommunicationFilePath (s : ManagerState) (dolphinUseType : UseType) :
    String × ManagerState :=
  ("slippi-" ++ dolphinUseType.str ++ "-" ++ toString s.nextCommId ++ ".txt",
   { s with nextCommId := s.nextCommId + 1 })

/-- `startDolphin`: resolves the executable and spawns the process. The
spawn is modelled as handing out the next pid. -/
def startDolphin (s : ManagerState) : Nat × ManagerState :=
  (s.nextPid, { s with nextPid := s.nextPid + 1 })

/-- The `case "playback"` branch of `launchDolphin`: if the slot is empty,
generate a comm path, spawn, populate the slot; then, whenever the slot's
instance has a `commFilePath`, write `JSON.stringify(replayComm)` to it.
Never throws. -/
def launchPlayback (s : ManagerState) (replayComm : Option ReplayCommunication) :
    ManagerState :=
  let s1 : ManagerState :=
    match s.instances.playback with
    | none =>
      let pr := generateCommunicationFilePath s .playback
      let sp := startDolphin pr.2
      { sp.2 with
        instances := { sp.2.instances with
          playback := some
            { dolphinUseType := .playback
              dolphin := some sp.1
              commFilePath := some pr.1 } } }
    | some _ => s
  match s1.instances.playback with
  | some inst =>
    match inst.commFilePath with
    | some p => { s1 with fs := writeFile s1.fs p (jsonStringify replayComm) }
    | none => s1
  | none => s1

/-- The `case "spectate"` branch: a negative index throws
`"Must have a valid index"`; otherwise look up by index via
`find(spectate, ["index", index])`, create-and-append when the lookup
fails or the found instance has no process, then write the payload to the
instance's comm file when it has one. -/
def launchSpectate (s : ManagerState) (index : Int)
    (replayComm : Option ReplayCommunication) : Except String ManagerState :=
  if index < 0 then .error "Must have a valid index"
  else
    let found : Option DolphinInstance :=
      (s.instances.spectate.getD []).find? (fun inst => inst.index == some index)
    let reusable : Option DolphinInstance :=
      match found with
      | some inst => if inst.dolphin.isSome then some inst else none
      | none => none
    match reusable with
    | some inst =>
      match inst.commFilePath with
      | some p => .ok { s with fs := writeFile s.fs p (jsonStringify replayComm) }
      | none => .ok s
    | none =>
      let pr := generateCommunicationFilePath s .spectate
      let sp := startDolphin pr.2
      let newInst : DolphinInstance :=
        { dolphinUseType := .spectate
          index := some index
          commFilePath := some pr.1
          dolphin := some sp.1 }
      let newList : List DolphinInstance :=
        match sp.2.instances.spectate with
        | none => [newInst]
        | some l => l ++ [newInst]
      .ok { sp.2 with
        instances := { sp.2.instances with spectate := some newList }
        fs := writeFile sp.2.fs pr.1 (jsonStringify replayComm) }

/-- The `case "netplay"` branch: spawn and populate only when the slot is
empty; no comm file is involved and the payload is never consulted. -/
def launchNetplay (s : ManagerState) : ManagerState :=
  match s.instances.netplay with
  | none =>
    let sp := startDolphin s
    { sp.2 with
      instances := { sp.2.instances with
        netplay := some { dolphinUseType := .netplay, dolphin := some sp.1 } } }
  | some _ => s

/-- The `case "config"` branch: a missing dolphin type throws
`"Must define a dolphin type for configuration"`; otherwise a process is
spawned unconditionally and the variant's slot is overwritten. -/
def launchConfig (s : ManagerState) (dolphinType : Option DolphinType) :
    Except String ManagerState :=
  match dolphinType with
  | none => .error "Must define a dolphin type for configuration"
  | some dt =>
    let sp := startDolphin s
    let inst : DolphinInstance := { dolphinUseType := .config, dolphin := some sp.1 }
    match dt with
    | .NETPLAY =>
      .ok { sp.2 with instances := { sp.2.instances with configNetplay := some inst } }
    | .PLAYBACK =>
      .ok { sp.2 with instances := { sp.2.instances with configPlayback := some inst } }

/-- `DolphinManager.launchDolphin`: the switch over the use type. -/
def launchDolphin (s : ManagerState) (dolphinUseType : UseType) (index : Int)
    (replayComm : Option ReplayCommunication := none)
    (dolphinType : Option DolphinType := none) : Except String ManagerState :=
  match dolphinUseType with
  | .playback => .ok (launchPlayback s replayComm)
  | .spectate => launchSpectate s index replayComm
  | .netplay => .ok (launchNetplay s)
  | .config => launchConfig s dolphinType

/-- The successful result of a launch, or the unchanged state when the
call threw. Used to phrase concrete executions without `Except` plumbing. -/
def launchOr (s : ManagerState) (dolphinUseType : UseType) (index : Int)
    (replayComm : Option ReplayCommunication := none)
    (dolphinType : Option DolphinType := none) : ManagerState :=
  match launchDolphin s dolphinUseType index replayComm dolphinType with
  | .ok s1 => s1
  | .error _ => s

def isOk {α : Type} (r : Except String α) : Bool :=
  match r with
  | .ok _ => true
  | .error _ => false

/-- A sequence of `launchDolphin(playback, ...)` calls (index and payload
per call), run left to right with no intervening process exit. -/
def runPlaybackLaunches (s : ManagerState) :
    List (Int × Option ReplayCommunication) → ManagerState
  | [] => s
  | a :: rest => runPlaybackLaunches (launchOr s .playback a.1 a.2 none) rest

/-- The playback `dolphin.on("close", ...)` handler: `await fs.unlink`
then clear the slot. When the unlink rejects, the handler's promise
rejects and the slot assignment never runs. -/
def playbackOnClose (commFilePath : String) (s : ManagerState) : ManagerState :=
  match unlink s.fs commFilePath with
  | .ok fs1 => { s with fs := fs1, instances := { s.instances with playback := none } }
  | .error _ => s

/-- The spectate close handler: unlink the comm file, then `remove` every
spectate entry whose `index` equals the captured index. -/
def spectateOnClose (commFilePath : String) (index : Int) (s : ManagerState) :
    ManagerState :=
  match unlink s.fs commFilePath with
  | .ok fs1 =>
    { s with
      fs := fs1
      instances := { s.instances with
        spectate := s.instances.spectate.map
          (fun l => l.filter (fun inst => !(inst.index == some index))) } }
  | .error _ => s

/-- The netplay close handler: clear the slot (no comm file). -/
def netplayOnClose (s : ManagerState) : ManagerState :=
  { s with instances := { s.instances with netplay := none } }

/-- The config close handler: clear the captured variant's slot. -/
def configOnClose (dt : DolphinType) (s : ManagerState) : ManagerState :=
  match dt with
  | .NETPLAY => { s with instances := { s.instances with configNetplay := none } }
  | .PLAYBACK => { s with instances := { s.instances with configPlayback := none } }

/-- The config slot selected by `configureType`. -/
def configSlot (dt : DolphinType) (s : ManagerState) : Option DolphinInstance :=
  match dt with
  | .NETPLAY => s.instances.configNetplay
  | .PLAYBACK => s.instances.configPlayback

/-!
## Event-loop interleaving of two playback launches

`launchDolphin` is `async`: it suspends at each `await`. For the playback
branch the suspension points split the body into these atomic segments,
named by the phase that is about to run:

* `beforeSettings` — the call has begun; the next resumption runs up to
  and including `await electronSettings.get("settings.isoPath")`.
* `beforeCheck` — the body reaches the `switch` and runs the
  `!this.dolphinInstances.playback` check. When the slot is empty it also
  computes the comm-file path (the body of the awaited
  `generateCommunicationFilePath` has no inner `await`) and then suspends
  inside `startDolphin` at `await findDolphinExecutable`.
* `beforeSpawn p` — `spawn` runs and the slot assignment executes in the
  same synchronous resumption; then the `commFilePath` check passes and
  the task suspends at `await fs.writeFile`.
* `beforeWrite p` — the write to `p` completes.
* `finished` — nothing left to run.

An occupied slot at `beforeCheck` goes straight to `beforeWrite` with the
existing instance's comm path (skipping the write when that path is
absent). A scheduler then runs any interleaving of such tasks.
-/

/-- Program counter of one in-flight `launchDolphin(playback)` call. -/
inductive PbPhase
  | beforeSettings
  | beforeCheck
  | beforeSpawn (commFilePath : String)
  | beforeWrite (commFilePath : String)
  | finished
deriving DecidableEq, Repr

/-- Run one atomic segment of a playback launch. -/
def pbStep (ph : PbPhase) (replayComm : Option ReplayCommunication)
    (s : ManagerState) : PbPhase × ManagerState :=
  match ph with
  | .beforeSettings => (.beforeCheck, s)
  | .beforeCheck =>
    match s.instances.playback with
    | none =>
      let pr := generateCommunicationFilePath s .playback
      (.beforeSpawn pr.1, pr.2)
    | some inst =>
      match inst.commFilePath with
      | some p => (.beforeWrite p, s)
      | none => (.finished, s)
  | .beforeSpawn p =>
    let sp := startDolphin s
    (.beforeWrite p,
     { sp.2 with
       instances := { sp.2.instances with
         playback := some
           { dolphinUseType := .playback
             dolphin := some sp.1
             commFilePath := some p } } })
  | .beforeWrite p =>
    (.finished, { s with fs := writeFile s.fs p (jsonStringify replayComm) })
  | .finished => (.finished, s)

/-- The event loop's view: the in-flight playback launches with their
payload arguments, plus the shared manager state. -/
structure InterleavingState where
  tasks : List (PbPhase × Option ReplayCommunication)
  mgr : ManagerState
deriving DecidableEq, Repr

/-- Resume task `k` for one atomic segment. -/
def schedStep (st : InterleavingState) (k : Nat) : InterleavingState :=
  match st.tasks.get? k with
  | none => st
  | some t =>
    let r := pbStep t.1 t.2 st.mgr
    { tasks := st.tasks.set k (r.1, t.2), mgr := r.2 }

/-- Run a whole schedule (a list of task choices). -/
def runSched (st : InterleavingState) : List Nat → InterleavingState
  | [] => st
  | k :: ks => runSched (schedStep st k) ks

/-- Two fresh playback launches with the given payloads over an empty
manager. -/
def twoPlaybackLaunches (rc1 rc2 : Option ReplayCommunication) :
    InterleavingState :=
  { tasks := [(.beforeSettings, rc1), (.beforeSettings, rc2)]
    mgr := initialState }

/-!
## The installation manager (`DolphinInstallation.validate`)

`validate` fetches the latest release info, then inside a `try` block
locates the executable, probes its version (`spawnSync(path, "--version")`)
and compares it to the latest with `semver.lt`; any throw in the block is
caught and leads to `downloadAndInstall`. The external probes are inputs:

* `findExe` — the result of `findDolphinExecutable` (throws or a path);
* `versionOutput` — `spawnSync(...).stdout.toString()` (throws or text);
* `latestVersion` — `fetchLatestVersion(type).version`.

`semver.lt` is modelled on plain `major.minor.patch` versions with
lexicographic comparison; like the library, it throws on input it cannot
parse as a version.
-/

/-- A plain semantic version. -/
structure SemVer where
  major : Nat
  minor : Nat
  patch : Nat
deriving DecidableEq, Repr

/-- Strict semantic-version ordering on plain versions. -/
def semverLt (a b : SemVer) : Bool :=
  if a.major == b.major then
    if a.minor == b.minor then a.patch < b.patch
    else a.minor < b.minor
  else a.major < b.major

def isSpaceChar (c : Char) : Bool :=
  c == ' ' || c == '\t' || c == '\n' || c == '\r'

/-- The whitespace trim the `semver` parser applies to its input. -/
def trimChars (cs : List Char) : List Char :=
  ((cs.dropWhile isSpaceChar).reverse.dropWhile isSpaceChar).reverse

def digitVal (c : Char) : Option Nat :=
  if 48 ≤ c.toNat && c.toNat ≤ 57 then some (c.toNat - 48) else none

/-- A non-empty all-digit run as a number. -/
def parseNatDigits (cs : List Char) : Option Nat :=
  if cs.isEmpty then none
  else
    cs.foldl
      (fun acc c =>
        match acc, digitVal c with
        | some n, some d => some (n * 10 + d)
        | _, _ => none)
      (some 0)

/-- Split a character list on `.`. -/
def splitOnDot : List Char → List Char → List (List Char)
  | [], acc => [acc.reverse]
  | c :: rest, acc =>
    if c == '.' then acc.reverse :: splitOnDot rest []
    else splitOnDot rest (c :: acc)

/-- Parse `major.minor.patch` (whitespace-trimmed, as `semver` does;
prerelease and build tags are out of scope); `none` models `semver`
throwing `Invalid Version`. -/
def parseSemver (v : String) : Option SemVer :=
  match (splitOnDot (trimChars v.data) []).map parseNatDigits with
  | [some a, some b, some c] => some { major := a, minor := b, patch := c }
  | _ => none

/-- The external probes `validate` consults, as a record of results. -/
structure ValidateEnv where
  findExe : Except String String
  versionOutput : Except String String
  latestVersion : String
deriving Repr

/-- `DolphinInstallation._isOutOfDate`: find the executable, read its
version output, and return `lt(installed, latest)`; any failure on the
way propagates as a throw. -/
def isOutOfDate (env : ValidateEnv) : Except String Bool :=
  match env.findExe with
  | .error e => .error e
  | .ok _ =>
    match env.versionOutput with
    | .error e => .error e
    | .ok out =>
      match parseSemver out, parseSemver env.latestVersion with
      | some v, some l => .ok (semverLt v l)
      | _, _ => .error "Invalid Version"

/-- What a `validate` run produced: the lines given to `log`, and whether
`downloadAndInstall` was invoked. -/
structure ValidateResult where
  logs : List String
  didDownload : Bool
deriving DecidableEq, Repr

/-- `DolphinInstallation.validate` for launch type `t` (its string image
in the log lines): the `try`/`catch` around executable lookup and the
out-of-date check, falling through to `downloadAndInstall`. -/
def validate (t : String) (env : ValidateEnv) : ValidateResult :=
  match env.findExe with
  | .error _ =>
    { logs := ["Could not find " ++ t ++ " Dolphin installation. Downloading..."]
      didDownload := true }
  | .ok _ =>
    let logs0 : List String :=
      ["Found existing " ++ t ++ " Dolphin executable.",
       "Checking if we need to update " ++ t ++ " Dolphin"]
    match isOutOfDate env with
    | .error _ =>
      { logs := logs0 ++
          ["Could not find " ++ t ++ " Dolphin installation. Downloading..."]
        didDownload := true }
    | .ok true =>
      { logs := logs0 ++
          [t ++ " Dolphin installation is outdated. Downloading latest..."]
        didDownload := true }
    | .ok false =>
      { logs := logs0 ++ ["No update found..."], didDownload := false }

/-!
## Theorems
-/

theorem lookupFile_writeFile_self (fs : FS) (p : String) (d : FileData) :
    lookupFile (writeFile fs p d) p = some d := by
  simp [lookupFile, writeFile]

theorem fileExists_filter_out (fs : FS) (p : String) :
    fileExists (fs.filter (fun e => !(e.1 == p))) p = false := by
  simp [fileExists, List.any_eq_true, List.mem_filter]

theorem launchPlayback_occupied (s : ManagerState) (rc : Option ReplayCommunication)
    (inst : DolphinInstance) (h : s.instances.playback = some inst) :
    (launchPlayback s rc).instances = s.instances
      ∧ (launchPlayback s rc).nextPid = s.nextPid := by
  unfold launchPlayback
  rw [h]
  cases hc : inst.commFilePath <;> simp [h, hc]

theorem launchPlayback_empty (s : ManagerState) (rc : Option ReplayCommunication)
    (h : s.instances.playback = none) :
    (launchPlayback s rc).instances.playback = some
      { dolphinUseType := .playback
        dolphin := some s.nextPid
        commFilePath := some ("slippi-playback-" ++ toString s.nextCommId ++ ".txt") }
      ∧ (launchPlayback s rc).nextPid = s.nextPid + 1 := by
  unfold launchPlayback
  rw [h]
  simp [generateCommunicationFilePath, startDolphin, UseType.str]

/-- C7 counterexample: with no dolphin type, `launchDolphin(config)` throws,
but its message is "Must define a dolphin type for configuration", not the
claimed "must define a launch variant for configuration". -/
theorem claim7_counterexample :
    launchDolphin initialState .config 0 none none =
      .error "Must define a dolphin type for configuration"
    ∧ ("Must define a dolphin type for configuration" ==
        "must define a launch variant for configuration") = false := by
  exact ⟨rfl, by decide⟩

/-- C7 (amended): every `launch(config, ...)` call without a launch variant
fails, leaving the registry untouched, with the error message
"Must define a dolphin type for configuration". -/
theorem claim7_config_requires_type (s : ManagerState) (i : Int)
    (rc : Option ReplayCommunication) :
    launchDolphin s .config i rc none =
      .error "Must define a dolphin type for configuration" := rfl

/-- C6 counterexample: the comm-file removal run at process exit is
`fs.unlink`, which rejects with `ENOENT` when the file is already absent;
the rejected close handler then leaves the state untouched (in particular
the slot is not cleared). -/
theorem claim6_counterexample :
    unlink ([] : FS) "slippi-playback-0.txt" = .error "ENOENT"
    ∧ playbackOnClose "slippi-playback-0.txt" initialState = initialState := by
  exact ⟨rfl, rfl⟩

/-- C6 (amended): the comm-file destroy step is not idempotent: `unlink`
succeeds exactly when the file exists and fails with `ENOENT` when it is
absent, in which case the playback close handler changes nothing. -/
theorem claim6_unlink_not_idempotent (fs : FS) (p : String) (s : ManagerState) :
    (fileExists fs p = false → unlink fs p = .error "ENOENT")
    ∧ (fileExists fs p = true → isOk (unlink fs p) = true)
    ∧ (fileExists s.fs p = false → playbackOnClose p s = s) := by
  refine ⟨fun h => ?_, fun h => ?_, fun h => ?_⟩
  · simp [unlink, h]
  · simp [unlink, h, isOk]
  · simp [playbackOnClose, unlink, h]

/-- C6 witness: `claim6_unlink_not_idempotent` at concrete inputs: the empty
filesystem (file absent) and a one-file filesystem (file present). -/
theorem claim6_witness :
    unlink ([] : FS) "a.txt" = .error "ENOENT"
    ∧ isOk (unlink [("a.txt", FileData.text "x")] "a.txt") = true
    ∧ playbackOnClose "a.txt" initialState = initialState := by
  refine ⟨(claim6_unlink_not_idempotent [] "a.txt" initialState).1 (by decide),
    (claim6_unlink_not_idempotent [("a.txt", FileData.text "x")] "a.txt" initialState).2.1
      (by decide),
    (claim6_unlink_not_idempotent [] "a.txt" initialState).2.2 (by decide)⟩

/-- C1 counterexample: after `launch(config, variant=playback)` succeeds, a
second identical call does not reuse the occupied `configPlayback` slot: it
spawns a second process (the pid counter reaches 2) and replaces the slot's
handle (pid 0 becomes pid 1). -/
theorem claim1_counterexample :
    (launchOr initialState .config 0 none (some .PLAYBACK)).instances.configPlayback =
      some { dolphinUseType := .config, dolphin := some 0 }
    ∧ (launchOr (launchOr initialState .config 0 none (some .PLAYBACK))
        .config 0 none (some .PLAYBACK)).instances.configPlayback =
      some { dolphinUseType := .config, dolphin := some 1 }
    ∧ (launchOr (launchOr initialState .config 0 none (some .PLAYBACK))
        .config 0 none (some .PLAYBACK)).nextPid = 2 := by
  exact ⟨rfl, rfl, rfl⟩

/-- C1 (amended): occupied `playback` and `netplay` slots are reused — the
existing instance (hence its process handle) stays in the slot and no new
process is spawned — but a `config` launch with a variant always spawns a
fresh process and overwrites the variant's slot with the new handle. -/
theorem claim1_singleton_reuse (s : ManagerState) (i : Int)
    (rc : Option ReplayCommunication) (instP instN : DolphinInstance)
    (dt : DolphinType) :
    (s.instances.playback = some instP →
      (launchOr s .playback i rc none).instances.playback = some instP
      ∧ (launchOr s .playback i rc none).nextPid = s.nextPid)
    ∧ (s.instances.netplay = some instN →
      launchDolphin s .netplay i rc none = .ok s)
    ∧ (isOk (launchDolphin s .config i rc (some dt)) = true
      ∧ (launchOr s .config i rc (some dt)).nextPid = s.nextPid + 1
      ∧ configSlot dt (launchOr s .config i rc (some dt)) =
          some { dolphinUseType := .config, dolphin := some s.nextPid }) := by
  refine ⟨fun h => ?_, fun h => ?_, ?_⟩
  · have hp := launchPlayback_occupied s rc instP h
    constructor
    · show (launchPlayback s rc).instances.playback = some instP
      rw [hp.1, h]
    · show (launchPlayback s rc).nextPid = s.nextPid
      exact hp.2
  · simp [launchDolphin, launchNetplay, h]
  · cases dt <;>
      simp [launchDolphin, launchConfig, launchOr, startDolphin, isOk, configSlot]

/-- C1 witness: `claim1_singleton_reuse` applied to a state whose playback
and netplay slots are occupied (built by two launches from the empty
registry), discharging both occupancy hypotheses. -/
theorem claim1_witness :
    (launchOr (launchOr (launchOr initialState .playback 0 none none)
        .netplay 0 none none) .playback 0 none none).instances.playback =
      some { dolphinUseType := .playback, dolphin := some 0,
             commFilePath := some "slippi-playback-0.txt" }
    ∧ launchDolphin (launchOr (launchOr initialState .playback 0 none none)
        .netplay 0 none none) .netplay 0 none none =
      .ok (launchOr (launchOr initialState .playback 0 none none) .netplay 0 none none)
    ∧ isOk (launchDolphin (launchOr (launchOr initialState .playback 0 none none)
        .netplay 0 none none) .config 0 none (some DolphinType.PLAYBACK)) = true := by
  have h := claim1_singleton_reuse
    (launchOr (launchOr initialState .playback 0 none none) .netplay 0 none none)
    0 none
    { dolphinUseType := .playback, dolphin := some 0,
      commFilePath := some "slippi-playback-0.txt" }
    { dolphinUseType := .netplay, dolphin := some 1 }
    DolphinType.PLAYBACK
  exact ⟨(h.1 (by decide)).1, h.2.1 (by decide), h.2.2.1⟩

theorem runPlaybackLaunches_occupied (args : List (Int × Option ReplayCommunication)) :
    ∀ s : ManagerState, s.instances.playback.isSome = true →
      (runPlaybackLaunches s args).nextPid = s.nextPid
      ∧ (runPlaybackLaunches s args).instances.playback.isSome = true := by
  induction args with
  | nil => exact fun s h => ⟨rfl, h⟩
  | cons a rest ih =>
    intro s h
    obtain ⟨inst, hinst⟩ := Option.isSome_iff_exists.mp h
    have hocc := launchPlayback_occupied s a.2 inst hinst
    have heq : launchOr s .playback a.1 a.2 none = launchPlayback s a.2 := rfl
    have h1 : (launchPlayback s a.2).instances.playback.isSome = true := by
      rw [hocc.1]; exact h
    have := ih (launchPlayback s a.2) h1
    refine ⟨?_, ?_⟩
    · show (runPlaybackLaunches (launchOr s .playback a.1 a.2 none) rest).nextPid = s.nextPid
      rw [heq, this.1, hocc.2]
    · show (runPlaybackLaunches (launchOr s .playback a.1 a.2 none) rest).instances.playback.isSome = true
      rw [heq]; exact this.2

/-- C2: for every sequence of `launch(playback, ...)` calls with no process
exit in between, starting from the empty registry, at most one process is
ever spawned, and after any non-empty sequence the playback slot is
occupied (so every later call observes it and does not spawn). -/
theorem claim2_playback_at_most_one_spawn
    (args : List (Int × Option ReplayCommunication)) :
    (runPlaybackLaunches initialState args).nextPid ≤ 1
    ∧ (args = [] ∨
        (runPlaybackLaunches initialState args).instances.playback.isSome = true) := by
  cases args with
  | nil => exact ⟨by decide, Or.inl rfl⟩
  | cons a rest =>
    have hempty : initialState.instances.playback = none := rfl
    have he := launchPlayback_empty initialState a.2 hempty
    have heq : launchOr initialState .playback a.1 a.2 none =
        launchPlayback initialState a.2 := rfl
    have h1 : (launchPlayback initialState a.2).instances.playback.isSome = true := by
      rw [he.1]; rfl
    have h2 : (launchPlayback initialState a.2).nextPid = 1 := he.2
    have hr := runPlaybackLaunches_occupied rest (launchPlayback initialState a.2) h1
    constructor
    · show (runPlaybackLaunches (launchOr initialState .playback a.1 a.2 none) rest).nextPid ≤ 1
      rw [heq, hr.1, h2]
    · refine Or.inr ?_
      show (runPlaybackLaunches (launchOr initialState .playback a.1 a.2 none) rest).instances.playback.isSome = true
      rw [heq]; exact hr.2

/-- C3 counterexample: an event-loop interleaving of two `launch(playback)`
calls (alternating at every `await`) in which both calls run to completion
and two processes are spawned — both observed the empty slot, refuting the
single-synchronous-decision-point claim. -/
theorem claim3_counterexample :
    (runSched (twoPlaybackLaunches none none) [0, 1, 0, 1, 0, 1, 0, 1]).mgr.nextPid = 2
    ∧ (runSched (twoPlaybackLaunches none none) [0, 1, 0, 1, 0, 1, 0, 1]).tasks =
        [(.finished, none), (.finished, none)] := by
  exact ⟨rfl, rfl⟩

/-- C3 (amended): the slot-occupancy read and the slot assignment are
separated by suspension points (the awaited comm-file-path generation and
process start), so for any payloads the alternating interleaving of two
playback launches spawns two processes, while running the first call to
completion before the second spawns only one. -/
theorem claim3_interleaving_double_spawn (rc1 rc2 : Option ReplayCommunication) :
    (runSched (twoPlaybackLaunches rc1 rc2) [0, 1, 0, 1, 0, 1, 0, 1]).mgr.nextPid = 2
    ∧ (runSched (twoPlaybackLaunches rc1 rc2) [0, 0, 0, 0, 1, 1, 1]).mgr.nextPid = 1 := by
  exact ⟨rfl, rfl⟩

/-- C10: a payload passed to `launch(netplay, ...)` or
`launch(config, variant, ...)` is silently discarded: the call succeeds, no
file is created or written, and the spawned instance stores no comm file
path. -/
theorem claim10_payload_discarded (s : ManagerState) (i : Int)
    (rc : ReplayCommunication) (dt : DolphinType) :
    (isOk (launchDolphin s .netplay i (some rc) none) = true
      ∧ (launchOr s .netplay i (some rc) none).fs = s.fs
      ∧ (s.instances.netplay = none →
          (launchOr s .netplay i (some rc) none).instances.netplay =
            some { dolphinUseType := .netplay, dolphin := some s.nextPid }))
    ∧ (isOk (launchDolphin s .config i (some rc) (some dt)) = true
      ∧ (launchOr s .config i (some rc) (some dt)).fs = s.fs
      ∧ configSlot dt (launchOr s .config i (some rc) (some dt)) =
          some { dolphinUseType := .config, dolphin := some s.nextPid }) := by
  constructor
  · cases hn : s.instances.netplay <;>
      simp [launchDolphin, launchNetplay, launchOr, startDolphin, isOk, hn]
  · cases dt <;>
      simp [launchDolphin, launchConfig, launchOr, startDolphin, isOk, configSlot]

/-- C10 witness: `claim10_payload_discarded` at the empty registry with a
concrete payload, discharging the empty-netplay-slot hypothesis. -/
theorem claim10_witness :
    isOk (launchDolphin initialState .netplay 0 (some { mode := "normal" }) none) = true
    ∧ (launchOr initialState .netplay 0 (some { mode := "normal" }) none).instances.netplay =
        some { dolphinUseType := .netplay, dolphin := some 0 }
    ∧ (launchOr initialState .config 0 (some { mode := "normal" })
        (some DolphinType.NETPLAY)).fs = initialState.fs := by
  have h := claim10_payload_discarded initialState 0 { mode := "normal" } DolphinType.NETPLAY
  exact ⟨h.1.1, h.1.2.2 rfl, h.2.2.1⟩

theorem all_not_index_filter (l : List DolphinInstance) (idx : Int) :
    (l.filter (fun inst => !(inst.index == some idx))).all
      (fun inst => !(inst.index == some idx)) = true := by
  simp [List.all_eq_true, List.mem_filter]

/-- C5: when the process-exit event of a live instance with a comm file
fires (the close handler runs with the captured path, the file being on
disk), the instance's slot becomes empty — the playback singleton is set to
absent, every spectate entry with the captured index is removed — and the
comm file no longer exists. -/
theorem claim5_exit_cleanup (s : ManagerState) (p : String) (idx : Int) :
    (fileExists s.fs p = true →
      (playbackOnClose p s).instances.playback = none
      ∧ fileExists (playbackOnClose p s).fs p = false)
    ∧ (fileExists s.fs p = true →
      fileExists (spectateOnClose p idx s).fs p = false
      ∧ ((spectateOnClose p idx s).instances.spectate.getD []).all
          (fun inst => !(inst.index == some idx)) = true) := by
  refine ⟨fun h => ?_, fun h => ?_⟩
  · simp only [playbackOnClose, unlink, h, if_true]
    exact ⟨trivial, fileExists_filter_out s.fs p⟩
  · simp only [spectateOnClose, unlink, h, if_true]
    refine ⟨fileExists_filter_out s.fs p, ?_⟩
    cases hs : s.instances.spectate with
    | none => simp
    | some l => simp

/-- C5 witness: `claim5_exit_cleanup` after a concrete playback launch and a
concrete spectate launch from the empty registry (so the comm files are on
disk), discharging the file-exists hypotheses. -/
theorem claim5_witness :
    (playbackOnClose "slippi-playback-0.txt"
        (launchOr initialState .playback 0 none none)).instances.playback = none
    ∧ fileExists (playbackOnClose "slippi-playback-0.txt"
        (launchOr initialState .playback 0 none none)).fs "slippi-playback-0.txt" = false
    ∧ fileExists (spectateOnClose "slippi-spectate-0.txt" 3
        (launchOr initialState .spectate 3 none none)).fs "slippi-spectate-0.txt" = false
    ∧ ((spectateOnClose "slippi-spectate-0.txt" 3
        (launchOr initialState .spectate 3 none none)).instances.spectate.getD []).all
        (fun inst => !(inst.index == some 3)) = true := by
  have h1 := claim5_exit_cleanup (launchOr initialState .playback 0 none none)
    "slippi-playback-0.txt" 0
  have h2 := claim5_exit_cleanup (launchOr initialState .spectate 3 none none)
    "slippi-spectate-0.txt" 3
  exact ⟨(h1.1 (by decide)).1, (h1.1 (by decide)).2,
    (h2.2 (by decide)).1, (h2.2 (by decide)).2⟩

/-- C8: for `launch(spectate, index, ...)`: a negative index fails with
"Must have a valid index" (a missing index cannot occur — the parameter is
mandatory in the signature); otherwise a live instance found by index is
reused (no spawn, registry unchanged), and when no live instance with the
index exists a new instance carrying that index is created and appended to
the spectate collection. -/
theorem claim8_spectate (s : ManagerState) (i : Int) (rc : Option ReplayCommunication)
    (inst : DolphinInstance) :
    (i < 0 → launchDolphin s .spectate i rc none = .error "Must have a valid index")
    ∧ (0 ≤ i →
      (s.instances.spectate.getD []).find? (fun inst0 => inst0.index == some i) =
        some inst →
      inst.dolphin.isSome = true →
      isOk (launchDolphin s .spectate i rc none) = true
      ∧ (launchOr s .spectate i rc none).instances = s.instances
      ∧ (launchOr s .spectate i rc none).nextPid = s.nextPid)
    ∧ (0 ≤ i →
      ((s.instances.spectate.getD []).find? (fun inst0 => inst0.index == some i)).all
          (fun inst0 => inst0.dolphin.isNone) = true →
      isOk (launchDolphin s .spectate i rc none) = true
      ∧ (launchOr s .spectate i rc none).nextPid = s.nextPid + 1
      ∧ (launchOr s .spectate i rc none).instances.spectate =
          some ((s.instances.spectate.getD []) ++
            [{ dolphinUseType := .spectate
               index := some i
               dolphin := some s.nextPid
               commFilePath :=
                 some ("slippi-spectate-" ++ toString s.nextCommId ++ ".txt") }])) := by
  refine ⟨fun h => ?_, fun h hf hd => ?_, fun h hall => ?_⟩
  · simp [launchDolphin, launchSpectate, h]
  · have hi : ¬ i < 0 := not_lt.mpr h
    simp only [launchDolphin, launchOr, launchSpectate, if_neg hi, hf, hd, if_true]
    cases hc : inst.commFilePath <;> simp [hc, isOk]
  · have hi : ¬ i < 0 := not_lt.mpr h
    have hreuse :
        (match (s.instances.spectate.getD []).find?
            (fun inst0 => inst0.index == some i) with
          | some inst0 => if inst0.dolphin.isSome then some inst0 else none
          | none => none) = (none : Option DolphinInstance) := by
      cases hf : (s.instances.spectate.getD []).find?
          (fun inst0 => inst0.index == some i) with
      | none => rfl
      | some inst0 =>
        rw [hf] at hall
        simp only [Option.all] at hall
        simp [Option.isNone_iff_eq_none.mp hall]
    simp only [launchDolphin, launchOr, launchSpectate, if_neg hi, hreuse]
    cases hs : s.instances.spectate <;>
      simp [hs, isOk, generateCommunicationFilePath, startDolphin, UseType.str]

/-- C8 witness: `claim8_spectate` at concrete inputs — a negative index, a
fresh index 0 (create-and-append), and index 0 again (reuse). -/
theorem claim8_witness :
    launchDolphin initialState .spectate (-1) none none =
      .error "Must have a valid index"
    ∧ (launchOr initialState .spectate 0 none none).instances.spectate =
        some [{ dolphinUseType := .spectate, index := some 0, dolphin := some 0,
                commFilePath := some "slippi-spectate-0.txt" }]
    ∧ (launchOr (launchOr initialState .spectate 0 none none)
        .spectate 0 none none).instances =
        (launchOr initialState .spectate 0 none none).instances
    ∧ (launchOr (launchOr initialState .spectate 0 none none)
        .spectate 0 none none).nextPid =
        (launchOr initialState .spectate 0 none none).nextPid := by
  have h1 := claim8_spectate initialState (-1) none { dolphinUseType := .playback }
  have h2 := claim8_spectate initialState 0 none { dolphinUseType := .playback }
  have h3 := claim8_spectate (launchOr initialState .spectate 0 none none) 0 none
    { dolphinUseType := .spectate, index := some 0, dolphin := some 0,
      commFilePath := some "slippi-spectate-0.txt" }
  refine ⟨h1.1 (by decide), ?_,
    (h3.2.1 (by decide) (by decide) (by decide)).2.1,
    (h3.2.1 (by decide) (by decide) (by decide)).2.2⟩
  refine Eq.trans ((h2.2.2 (by decide) (by decide)).2.2) ?_
  decide

theorem spectate_reusable_none (s : ManagerState) (i : Int)
    (hall : ((s.instances.spectate.getD []).find?
        (fun inst0 => inst0.index == some i)).all
        (fun inst0 => inst0.dolphin.isNone) = true) :
    (match (s.instances.spectate.getD []).find?
        (fun inst0 => inst0.index == some i) with
      | some inst0 => if inst0.dolphin.isSome then some inst0 else none
      | none => none) = (none : Option DolphinInstance) := by
  cases hf : (s.instances.spectate.getD []).find?
      (fun inst0 => inst0.index == some i) with
  | none => rfl
  | some inst0 =>
    rw [hf] at hall
    simp only [Option.all] at hall
    simp [Option.isNone_iff_eq_none.mp hall]

/-- C4 counterexample: `launch(playback)` with NO payload still writes the
comm file — after the call from the empty registry, the file exists and
holds the coerced text `undefined` — refuting "when no payload is supplied,
the call succeeds without writing the comm file". -/
theorem claim4_counterexample :
    fileExists (launchOr initialState .playback 0 none none).fs
      "slippi-playback-0.txt" = true
    ∧ lookupFile (launchOr initialState .playback 0 none none).fs
        "slippi-playback-0.txt" = some (FileData.text "undefined") := by
  exact ⟨rfl, rfl⟩

/-- C4 (amended): on every `launch(playback, ...)` or valid
`launch(spectate, index, ...)` call, the instance's comm file is written
unconditionally with `JSON.stringify(payload)` — the serialized payload
when one is supplied, and the coerced text `undefined` when not — rather
than being skipped when no payload is supplied. -/
theorem claim4_comm_write_unconditional (s : ManagerState) (i : Int)
    (rc : Option ReplayCommunication) (inst : DolphinInstance) (p : String) :
    ((launchPlayback s rc).instances.playback = some inst →
      inst.commFilePath = some p →
      lookupFile (launchPlayback s rc).fs p = some (jsonStringify rc))
    ∧ (0 ≤ i →
      ((s.instances.spectate.getD []).find? (fun inst0 => inst0.index == some i)).all
          (fun inst0 => inst0.dolphin.isNone) = true →
      lookupFile (launchOr s .spectate i rc none).fs
          ("slippi-spectate-" ++ toString s.nextCommId ++ ".txt") =
        some (jsonStringify rc))
    ∧ ((s.instances.spectate.getD []).find? (fun inst0 => inst0.index == some i) =
        some inst →
      inst.dolphin.isSome = true → inst.commFilePath = some p → 0 ≤ i →
      lookupFile (launchOr s .spectate i rc none).fs p = some (jsonStringify rc)) := by
  refine ⟨fun h1 h2 => ?_, fun h hall => ?_, fun hf hd hc h => ?_⟩
  · cases hp : s.instances.playback with
    | none =>
      rw [launchPlayback] at h1 ⊢
      simp only [hp] at h1 ⊢
      simp only [Option.some.injEq] at h1
      subst h1
      simp only [Option.some.injEq] at h2
      subst h2
      exact lookupFile_writeFile_self _ _ _
    | some instO =>
      rw [launchPlayback] at h1 ⊢
      simp only [hp] at h1 ⊢
      cases hc2 : instO.commFilePath with
      | none =>
        simp only [hc2, hp, Option.some.injEq] at h1
        subst h1
        rw [hc2] at h2
        exact absurd h2 (by simp)
      | some q =>
        simp only [hc2, hp, Option.some.injEq] at h1 ⊢
        subst h1
        rw [hc2] at h2
        simp only [Option.some.injEq] at h2
        subst h2
        exact lookupFile_writeFile_self _ _ _
  · have hi : ¬ i < 0 := not_lt.mpr h
    simp only [launchOr, launchDolphin, launchSpectate, if_neg hi,
      spectate_reusable_none s i hall]
    cases hs : s.instances.spectate <;>
      simp [generateCommunicationFilePath, startDolphin, UseType.str,
        lookupFile_writeFile_self]
  · have hi : ¬ i < 0 := not_lt.mpr h
    simp only [launchOr, launchDolphin, launchSpectate, if_neg hi, hf, hd, if_true]
    rw [hc]
    exact lookupFile_writeFile_self _ _ _

/-- C4 witness: `claim4_comm_write_unconditional` at a playback launch with
a concrete payload from the empty registry, and at spectate create/reuse
launches, discharging every hypothesis concretely. -/
theorem claim4_witness :
    lookupFile (launchPlayback initialState (some { mode := "normal" })).fs
      "slippi-playback-0.txt" = some (jsonStringify (some { mode := "normal" }))
    ∧ lookupFile (launchOr initialState .spectate 7 (some { mode := "mirror" }) none).fs
        ("slippi-spectate-" ++ toString initialState.nextCommId ++ ".txt") =
      some (jsonStringify (some { mode := "mirror" }))
    ∧ lookupFile (launchOr (launchOr initialState .spectate 7 none none)
        .spectate 7 (some { mode := "queue" }) none).fs "slippi-spectate-0.txt" =
      some (jsonStringify (some { mode := "queue" })) := by
  have h1 := claim4_comm_write_unconditional initialState 0 (some { mode := "normal" })
    { dolphinUseType := .playback, dolphin := some 0,
      commFilePath := some "slippi-playback-0.txt" } "slippi-playback-0.txt"
  have h2 := claim4_comm_write_unconditional initialState 7 (some { mode := "mirror" })
    { dolphinUseType := .playback } "x"
  have h3 := claim4_comm_write_unconditional (launchOr initialState .spectate 7 none none)
    7 (some { mode := "queue" })
    { dolphinUseType := .spectate, index := some 7, dolphin := some 0,
      commFilePath := some "slippi-spectate-0.txt" } "slippi-spectate-0.txt"
  exact ⟨h1.1 (by decide) rfl, h2.2.1 (by decide) (by decide),
    h3.2.2 (by decide) (by decide) rfl (by decide)⟩

/-- C9: `validate` with a located executable whose reported version is not
less than the latest (semantic-version ordering) performs no download and
logs "No update found..."; a lesser reported version triggers
`downloadAndInstall`; and any failure locating the executable, reading its
version output, or parsing it as a version also leads to
`downloadAndInstall` instead of a propagated error. -/
theorem claim9_validate (t : String) (env : ValidateEnv) (p out e1 e2 : String)
    (v l : SemVer) :
    (env.findExe = .ok p → env.versionOutput = .ok out →
      parseSemver out = some v → parseSemver env.latestVersion = some l →
      ((semverLt v l = false →
        (validate t env).didDownload = false
        ∧ "No update found..." ∈ (validate t env).logs)
      ∧ (semverLt v l = true → (validate t env).didDownload = true)))
    ∧ (env.findExe = .error e1 → (validate t env).didDownload = true)
    ∧ (env.findExe = .ok p → env.versionOutput = .error e2 →
        (validate t env).didDownload = true)
    ∧ (env.findExe = .ok p → env.versionOutput = .ok out → parseSemver out = none →
        (validate t env).didDownload = true) := by
  refine ⟨fun hf ho hv hl => ⟨fun hlt => ?_, fun hlt => ?_⟩,
    fun hf => ?_, fun hf ho => ?_, fun hf ho hv => ?_⟩
  · simp [validate, isOutOfDate, hf, ho, hv, hl, hlt]
  · simp [validate, isOutOfDate, hf, ho, hv, hl, hlt]
  · simp [validate, hf]
  · simp [validate, isOutOfDate, hf, ho]
  · simp [validate, isOutOfDate, hf, ho, hv]

/-- C9 witness: `claim9_validate` at concrete probe results — versions
2.3.2 vs 2.3.2 (no download, "No update found..." logged), 2.3.1 vs 2.3.2
(download), a missing executable, a failing version probe, and unparsable
version output (all download). -/
theorem claim9_witness :
    (validate "netplay"
      { findExe := .ok "d", versionOutput := .ok "2.3.2",
        latestVersion := "2.3.2" }).didDownload = false
    ∧ "No update found..." ∈ (validate "netplay"
      { findExe := .ok "d", versionOutput := .ok "2.3.2",
        latestVersion := "2.3.2" }).logs
    ∧ (validate "netplay"
      { findExe := .ok "d", versionOutput := .ok "2.3.1",
        latestVersion := "2.3.2" }).didDownload = true
    ∧ (validate "netplay"
      { findExe := .error "not found", versionOutput := .ok "2.3.2",
        latestVersion := "2.3.2" }).didDownload = true
    ∧ (validate "playback"
      { findExe := .ok "d", versionOutput := .error "spawn failed",
        latestVersion := "2.3.2" }).didDownload = true
    ∧ (validate "playback"
      { findExe := .ok "d", versionOutput := .ok "Dolphin",
        latestVersion := "2.3.2" }).didDownload = true := by
  have h1 := claim9_validate "netplay"
    { findExe := .ok "d", versionOutput := .ok "2.3.2", latestVersion := "2.3.2" }
    "d" "2.3.2" "e" "e" { major := 2, minor := 3, patch := 2 }
    { major := 2, minor := 3, patch := 2 }
  have h2 := claim9_validate "netplay"
    { findExe := .ok "d", versionOutput := .ok "2.3.1", latestVersion := "2.3.2" }
    "d" "2.3.1" "e" "e" { major := 2, minor := 3, patch := 1 }
    { major := 2, minor := 3, patch := 2 }
  have h3 := claim9_validate "netplay"
    { findExe := .error "not found", versionOutput := .ok "2.3.2",
      latestVersion := "2.3.2" }
    "d" "2.3.2" "not found" "e" { major := 2, minor := 3, patch := 2 }
    { major := 2, minor := 3, patch := 2 }
  have h4 := claim9_validate "playback"
    { findExe := .ok "d", versionOutput := .error "spawn failed",
      latestVersion := "2.3.2" }
    "d" "2.3.2" "e" "spawn failed" { major := 2, minor := 3, patch := 2 }
    { major := 2, minor := 3, patch := 2 }
  have h5 := claim9_validate "playback"
    { findExe := .ok "d", versionOutput := .ok "Dolphin", latestVersion := "2.3.2" }
    "d" "Dolphin" "e" "e" { major := 2, minor := 3, patch := 2 }
    { major := 2, minor := 3, patch := 2 }
  refine ⟨((h1.1 rfl rfl (by decide) (by decide)).1 (by decide)).1,
    ((h1.1 rfl rfl (by decide) (by decide)).1 (by decide)).2,
    (h2.1 rfl rfl (by decide) (by decide)).2 (by decide),
    h3.2.1 rfl, h4.2.2.1 rfl rfl, h5.2.2.2 rfl rfl (by decide)⟩
